/-
Verification of the goat-user marketplace backend (src/server.js together
with src/models/Order.js and src/models/User.js).

The Express handlers are shallowly embedded as pure functions over an
explicit database state `DB`:
  * `createOrder`    embeds the POST /api/orders handler,
  * `cancelOrder`    embeds the PUT /api/orders/:id/cancel handler,
  * `rejectPayment`  embeds the PUT /api/admin/orders/:id/reject handler,
  * `setOrderStatus` embeds the PUT /api/admin/orders/:id handler,
  * `resubmitProof`  embeds the PUT /api/orders/:id/reupload handler.
MongoDB collections are modelled as association lists keyed by document id;
`findByIdAndUpdate` / `updateMany` become the `updateAssoc` /
`updateManyStatus` functions below.  Each await-ed database call in a
handler is one atomic step.  The error branch of the try/catch in the reject handler (a storage fault while appending the notification) is modelled by
the explicit `notifyFault` flag: when it is set, the notification append
throws after the order update has already committed, and control reaches
the catch block, which answers 500.
-/
import Mathlib

set_option autoImplicit false

namespace GoatUser

/-- Shipping address subdocument of an order (orderSchema.address). -/
structure Address where
  name : String := ""
  phone : String := ""
  line : String := ""
  city : String := ""
  state : String := ""
  pincode : String := ""
deriving Repr, DecidableEq

/-- One item snapshot as submitted in a basket and stored on an order
(orderSchema.items entries; `id` is the listing identifier the client sends
as `_id`, i.e. what `items.map(item => item._id)` extracts). -/
structure ItemSnap where
  id : String
  name : String := ""
  price : Int := 0
  breed : String := ""
  kind : String := ""
deriving Repr, DecidableEq

/-- An uploaded binary blob (multer file): payment proof or image. -/
structure Blob where
  data : String := ""
  contentType : String := ""
deriving Repr, DecidableEq

/-- One inbox record of userSchema.notifications. -/
structure Notification where
  id : String := ""
  title : String := ""
  message : String := ""
  icon : String := ""
  color : String := ""
  timestamp : Nat := 0
  seen : Bool := false
deriving Repr, DecidableEq

/-- A catalog document of the Livestock collection.  Only the fields the
order handlers read or write are kept; `status` is the availability field
("Available" / "Sold" as written by the handlers). -/
structure Livestock where
  name : String := ""
  price : Int := 0
  status : String := "Available"
deriving Repr, DecidableEq

/-- An order document (orderSchema plus the rejectionReason / paymentProof
fields the handlers store on it).  `status` defaults to "Processing" as in
the schema. -/
structure Order where
  customer : String := ""
  userId : String := ""
  date : String := ""
  items : List ItemSnap := []
  total : Int := 0
  status : String := "Processing"
  address : Address := {}
  rejectionReason : String := ""
  paymentProof : Option Blob := none
deriving Repr, DecidableEq

/-- A user document (userSchema), restricted to the fields the order
handlers touch. -/
structure User where
  name : String := ""
  cart : List ItemSnap := []
  notifications : List Notification := []
deriving Repr, DecidableEq

/-- The persistent state: the three MongoDB collections, each an
association list from document id to document. -/
structure DB where
  livestock : List (String × Livestock) := []
  orders : List (String × Order) := []
  users : List (String × User) := []
deriving Repr, DecidableEq

/-- MongoDB findById (findOne by id) on an association-list collection:
first entry whose key is `k`. -/
def lookupA {α : Type} : List (String × α) → String → Option α
  | [], _ => none
  | p :: rest, k => if p.1 = k then some p.2 else lookupA rest k

/-- MongoDB findByIdAndUpdate on an association-list collection: apply `f`
to every document whose id is `k` (ids are unique in MongoDB, so this is
the single matching document), leave the rest alone. -/
def updateAssoc {α : Type} (l : List (String × α)) (k : String) (f : α → α) :
    List (String × α) :=
  l.map fun p => if p.1 = k then (p.1, f p.2) else p

/-- MongoDB updateMany over the Livestock collection, setting the status
field of every document whose id lies in `ids`. -/
def updateManyStatus (l : List (String × Livestock)) (ids : List String)
    (s : String) : List (String × Livestock) :=
  l.map fun p => if p.1 ∈ ids then (p.1, { p.2 with status := s }) else p

/-- Availability of a listing: the `status` field of the livestock
document with the given id, when it exists. -/
def statusOf (db : DB) (lid : String) : Option String :=
  (lookupA db.livestock lid).map Livestock.status

/-- The request body of POST /api/orders after parsing: items, address,
total, date, and the optional multer paymentProof file. -/
structure CreateReq where
  items : List ItemSnap := []
  address : Address := {}
  total : Int := 0
  date : String := ""
  paymentProof : Option Blob := none
deriving Repr, DecidableEq

/-- Outcome of POST /api/orders: 201 with the new order, or the catch
catch-block 500. -/
inductive CreateResult where
  | created (o : Order)
  | serverError
deriving Repr, DecidableEq

/-- Whether a create outcome is the 201 success response. -/
def CreateResult.isCreated : CreateResult → Bool
  | .created _ => true
  | .serverError => false

/-- The order document `new Order({...})` builds in the create handler:
status comes from the schema default "Processing". -/
def newOrderOf (uid uname : String) (req : CreateReq) : Order :=
  { customer := uname, userId := uid, date := req.date, items := req.items,
    total := req.total, address := req.address,
    paymentProof := req.paymentProof }

/-- POST /api/orders (src/server.js lines 381-420).  `uid`/`uname` come
from the auth cookie, `oid` is the `_id` MongoDB assigns to the new order.
Steps, in handler order: save the new order; if the basket is nonempty,
`updateMany` every listed id to status "Sold"; `$set` the cart of the user to
`[]`; answer 201 with the order.  No availability check is performed
anywhere. -/
def createOrder (db : DB) (uid uname oid : String) (req : CreateReq) :
    DB × CreateResult :=
  let newOrder := newOrderOf uid uname req
  let db1 : DB := { db with orders := (oid, newOrder) :: db.orders }
  let itemIds := req.items.map ItemSnap.id
  let db2 : DB :=
    if itemIds.length > 0 then
      { db1 with livestock := updateManyStatus db1.livestock itemIds "Sold" }
    else db1
  let db3 : DB :=
    { db2 with users := updateAssoc db2.users uid (fun u => { u with cart := [] }) }
  (db3, .created newOrder)

/-- Outcome of PUT /api/orders/:id/cancel: 200 success, 404 when no order
with this id belongs to the requester, or the 400 "Cannot cancel order"
refusal. -/
inductive CancelResult where
  | ok
  | notFound
  | cannotCancel
deriving Repr, DecidableEq

/-- MongoDB findOne with the filter on both the order id and the owning
user id. -/
def findOrderOwned (db : DB) (oid uid : String) : Option Order :=
  match lookupA db.orders oid with
  | none => none
  | some o => if o.userId = uid then some o else none

/-- PUT /api/orders/:id/cancel (src/server.js lines 422-445).  Finds the
order of the requester; refuses with 400 unless its status is "Processing";
otherwise saves status "Cancelled" and, if the order has items,
`updateMany`s their listings back to status "Available". -/
def cancelOrder (db : DB) (oid uid : String) : DB × CancelResult :=
  match findOrderOwned db oid uid with
  | none => (db, .notFound)
  | some o =>
    if o.status ≠ "Processing" then (db, .cannotCancel)
    else
      let orders1 := updateAssoc db.orders oid
        (fun x => { x with status := "Cancelled" })
      let db1 : DB := { db with orders := orders1 }
      let itemIds := o.items.map ItemSnap.id
      let db2 : DB :=
        if itemIds.length > 0 then
          { db1 with livestock := updateManyStatus db1.livestock itemIds "Available" }
        else db1
      (db2, .ok)

/-- Outcome of PUT /api/admin/orders/:id/reject: 200 success, 404 when the
order does not exist, or the catch catch-block 500. -/
inductive RejectResult where
  | success
  | notFound
  | serverError
deriving Repr, DecidableEq

/-- JS disjunction `reason || default`: an absent or empty (falsy)
reason falls back to the default text Invalid payment proof. -/
def reasonText : Option String → String
  | none => "Invalid payment proof."
  | some r => if r = "" then "Invalid payment proof." else r

/-- The template string of the reject handler interpolates the raw body
value, which prints as "undefined" when absent. -/
def rawReason : Option String → String
  | none => "undefined"
  | some r => r

/-- The notification record the reject handler `$push`es
(an id built from rej_ and Date.now(), title, message, icon, color,
timestamp, seen false). -/
def rejNotification (oid : String) (reason : Option String) (ts : Nat) :
    Notification :=
  { id := "rej_" ++ toString ts, title := "Payment Rejected",
    message := "Order #" ++ oid.takeRight 6 ++ " proof rejected: "
      ++ rawReason reason,
    icon := "alert-circle", color := "red", timestamp := ts, seen := false }

/-- PUT /api/admin/orders/:id/reject (src/server.js lines 292-324).
`findByIdAndUpdate` the order to status "Payment Rejected" with the
rejection reason (404 when the order does not exist); then
`findByIdAndUpdate` the owning user, `$push`ing one notification.  The
whole body sits in one try/catch: when the notification append faults
(`notifyFault`), the already-committed order update stays and the catch
block answers 500. -/
def rejectPayment (db : DB) (oid : String) (reason : Option String)
    (ts : Nat) (notifyFault : Bool) : DB × RejectResult :=
  match lookupA db.orders oid with
  | none => (db, .notFound)
  | some o =>
    let orders1 := updateAssoc db.orders oid
      (fun x => { x with status := "Payment Rejected",
                         rejectionReason := reasonText reason })
    let db1 : DB := { db with orders := orders1 }
    if notifyFault then (db1, .serverError)
    else
      let users2 := updateAssoc db1.users o.userId
        (fun u => { u with
          notifications := u.notifications ++ [rejNotification oid reason ts] })
      let db2 : DB := { db1 with users := users2 }
      (db2, .success)

/-- PUT /api/admin/orders/:id (src/server.js lines 326-334):
`findByIdAndUpdate` the status of the order to the status in the body, answering
with the updated order (null when absent). -/
def setOrderStatus (db : DB) (oid s : String) : DB × Option Order :=
  let db1 : DB :=
    { db with orders := updateAssoc db.orders oid (fun x => { x with status := s }) }
  (db1, lookupA db1.orders oid)

/-- Outcome of PUT /api/orders/:id/reupload: 200 success, 400 when no file
was uploaded, or 404 when no order with this id belongs to the
requester. -/
inductive ReuploadResult where
  | success
  | noFile
  | notFound
deriving Repr, DecidableEq

/-- PUT /api/orders/:id/reupload (src/server.js lines 357-379).  Requires
an uploaded file; finds the order of the requester; `findByIdAndUpdate`s it to
status "Processing", empty rejectionReason, and the new paymentProof.  No
check of the current status is made. -/
def resubmitProof (db : DB) (oid uid : String) (file : Option Blob) :
    DB × ReuploadResult :=
  match file with
  | none => (db, .noFile)
  | some blob =>
    match findOrderOwned db oid uid with
    | none => (db, .notFound)
    | some _ =>
      let orders1 := updateAssoc db.orders oid
        (fun x => { x with status := "Processing", rejectionReason := "",
                           paymentProof := some blob })
      let db1 : DB := { db with orders := orders1 }
      (db1, .success)

/-- Create an order and immediately cancel it by the same user: the
composition POST /api/orders then PUT /api/orders/:id/cancel. -/
def roundTrip (db : DB) (uid uname oid : String) (req : CreateReq) :
    DB × CancelResult :=
  cancelOrder (createOrder db uid uname oid req).1 oid uid

/-- The fields of an order record other than status, rejectionReason and
paymentProof: the creation-time snapshot (customer, owner, date, items,
total, address). -/
def frameFields (o : Order) :
    String × String × String × List ItemSnap × Int × Address :=
  (o.customer, o.userId, o.date, o.items, o.total, o.address)

/-- A transition from `db` to `dbNew` leaves the snapshot fields of every order
(`frameFields`, in particular the item list and the total) unchanged. -/
def preservesFrame (db dbNew : DB) : Prop :=
  ∀ k, (lookupA dbNew.orders k).map frameFields
    = (lookupA db.orders k).map frameFields

/- Concrete fixtures used by the counterexamples and witnesses. -/

/-- An available catalog listing. -/
def goatA : Livestock := { name := "goat A", price := 100 }

/-- A listing already sold (not Available). -/
def goatSold : Livestock := { name := "goat B", price := 80, status := "Sold" }

/-- Basket snapshot referring to listing L1. -/
def itemL1 : ItemSnap := { id := "L1", name := "goat A", price := 100 }

/-- Basket snapshot referring to listing L2. -/
def itemL2 : ItemSnap := { id := "L2", name := "goat B", price := 80 }

/-- A user with an empty inbox. -/
def alice : User := { name := "Alice" }

/-- A second user. -/
def bob : User := { name := "Bob" }

/-- Catalog with L1 and L2 both Available, two users, no orders. -/
def dbAvail : DB :=
  { livestock := [("L1", goatA), ("L2", { goatA with name := "goat B" })],
    orders := [], users := [("u1", alice), ("u2", bob)] }

/-- Catalog with L1 Available and L2 already Sold. -/
def dbMixed : DB :=
  { livestock := [("L1", goatA), ("L2", goatSold)], orders := [],
    users := [("u1", alice)] }

/-- An order of Alice that has already been shipped. -/
def shippedOrder : Order :=
  { customer := "Alice", userId := "u1", items := [itemL1], total := 100,
    status := "Shipped" }

/-- State holding the shipped order o1. -/
def dbShipped : DB :=
  { livestock := [("L1", goatSold)], orders := [("o1", shippedOrder)],
    users := [("u1", alice)] }

/-- An order of Alice still in status Processing. -/
def procOrder : Order :=
  { customer := "Alice", userId := "u1", items := [itemL1], total := 100 }

/-- State holding the processing order o1. -/
def dbProc : DB :=
  { livestock := [("L1", goatSold)], orders := [("o1", procOrder)],
    users := [("u1", alice)] }

/-- Request carrying the one-item basket [L1]. -/
def reqL1 : CreateReq := { items := [itemL1], total := 100 }

/-- Request carrying the two-item basket [L1, L2]. -/
def reqL1L2 : CreateReq := { items := [itemL1, itemL2], total := 180 }

/-- Request with an empty basket. -/
def reqEmpty : CreateReq := { total := 0 }

/-- A payment-proof upload. -/
def proofBlob : Blob := { data := "scan2", contentType := "image/png" }

/-- Request carrying the one-item basket [L2]. -/
def reqL2 : CreateReq := { items := [itemL2], total := 80 }

/- Store lemmas. -/

/-- Looking a key up after `findByIdAndUpdate`: the updated document when
the keys agree, the old answer otherwise. -/
theorem lookupA_updateAssoc {α : Type} (l : List (String × α)) (k k' : String)
    (f : α → α) :
    lookupA (updateAssoc l k f) k'
      = if k' = k then (lookupA l k').map f else lookupA l k' := by
  induction l with
  | nil => simp [updateAssoc, lookupA]
  | cons p rest ih =>
    simp only [updateAssoc, List.map_cons] at ih ⊢
    by_cases h1 : p.1 = k
    · by_cases h2 : p.1 = k'
      · have hk : k' = k := by rw [← h2, h1]
        simp [lookupA, h1, h2, hk]
      · have hk : ¬ k' = k := fun h => h2 (h1.trans h.symm)
        have hk2 : ¬ k = k' := fun h => h2 (h1.trans h)
        simp [lookupA, h1, h2, hk, hk2, ih]
    · by_cases h2 : p.1 = k'
      · have hk : ¬ k' = k := fun h => h1 (h2.trans h)
        simp [lookupA, h1, h2, hk]
      · simp [lookupA, h1, h2, ih]

/-- Looking a key up after `updateMany`: the status field is overwritten
exactly on the keys of the batch. -/
theorem lookupA_updateManyStatus (l : List (String × Livestock))
    (ids : List String) (s k : String) :
    lookupA (updateManyStatus l ids s) k
      = (lookupA l k).map
          (fun v => if k ∈ ids then { v with status := s } else v) := by
  induction l with
  | nil => simp [updateManyStatus, lookupA]
  | cons p rest ih =>
    simp only [updateManyStatus, List.map_cons] at ih ⊢
    by_cases h1 : p.1 ∈ ids
    · by_cases h2 : p.1 = k
      · have hk : k ∈ ids := by rw [← h2]; exact h1
        simp [lookupA, h1, h2, hk]
      · simp [lookupA, h1, h2, ih]
    · by_cases h2 : p.1 = k
      · have hk : ¬ k ∈ ids := by
          intro hmem; exact h1 (by rw [h2]; exact hmem)
        simp [lookupA, h1, h2, hk]
      · simp [lookupA, h1, h2, ih]

/- Characterization of the create handler, one collection at a time. -/

/-- POST /api/orders always answers 201 with the new order. -/
theorem createOrder_snd (db : DB) (uid uname oid : String) (req : CreateReq) :
    (createOrder db uid uname oid req).2
      = CreateResult.created (newOrderOf uid uname req) := rfl

/-- POST /api/orders prepends the new order document to the collection. -/
theorem createOrder_orders (db : DB) (uid uname oid : String)
    (req : CreateReq) :
    (createOrder db uid uname oid req).1.orders
      = (oid, newOrderOf uid uname req) :: db.orders := by
  simp only [createOrder]
  split <;> rfl

/-- POST /api/orders marks exactly the listings of the basket Sold (when the
basket is nonempty; otherwise the catalog is untouched). -/
theorem createOrder_livestock (db : DB) (uid uname oid : String)
    (req : CreateReq) :
    (createOrder db uid uname oid req).1.livestock
      = if (req.items.map ItemSnap.id).length > 0 then
          updateManyStatus db.livestock (req.items.map ItemSnap.id) "Sold"
        else db.livestock := by
  simp only [createOrder]
  split <;> simp_all

/-- POST /api/orders clears the cart of the requester and touches no other
user document. -/
theorem createOrder_users (db : DB) (uid uname oid : String)
    (req : CreateReq) :
    (createOrder db uid uname oid req).1.users
      = updateAssoc db.users uid (fun u => { u with cart := [] }) := by
  simp only [createOrder]
  split <;> rfl

/-- Every document of an updateMany batch ends with the written status. -/
theorem lookupA_updateManyStatus_mem (l : List (String × Livestock))
    (ids : List String) (s L : String) (hL : L ∈ ids) :
    ∀ v, lookupA (updateManyStatus l ids s) L = some v → v.status = s := by
  intro v hv
  rw [lookupA_updateManyStatus] at hv
  rcases hlk : lookupA l L with _ | w <;> rw [hlk] at hv
  · simp at hv
  · have hv2 : ({ w with status := s } : Livestock) = v := by
      simpa [hL] using hv
    rw [← hv2]

/-- Every listing of a nonempty basket has status Sold after createOrder,
whatever its availability was before. -/
theorem createOrder_marks_sold (db : DB) (uid uname oid : String)
    (req : CreateReq) (L : String) (hL : L ∈ req.items.map ItemSnap.id) :
    ∀ v, lookupA (createOrder db uid uname oid req).1.livestock L = some v →
      v.status = "Sold" := by
  intro v hv
  rw [createOrder_livestock,
    if_pos (List.length_pos.mpr (List.ne_nil_of_mem hL))] at hv
  exact lookupA_updateManyStatus_mem db.livestock _ _ L hL v hv

/- Characterization of the cancel, reject and reupload handlers on their
success paths. -/

/-- PUT /api/orders/:id/cancel on an owned Processing order: answers ok,
sets the status of the order Cancelled, releases the listings of the order
(when it has any) and touches no user document. -/
theorem cancelOrder_ok_parts (db : DB) (oid uid : String) (o : Order)
    (hfind : lookupA db.orders oid = some o) (hown : o.userId = uid)
    (hst : o.status = "Processing") :
    (cancelOrder db oid uid).2 = CancelResult.ok
    ∧ (cancelOrder db oid uid).1.orders
        = updateAssoc db.orders oid (fun x => { x with status := "Cancelled" })
    ∧ (cancelOrder db oid uid).1.livestock
        = (if (o.items.map ItemSnap.id).length > 0 then
            updateManyStatus db.livestock (o.items.map ItemSnap.id) "Available"
          else db.livestock)
    ∧ (cancelOrder db oid uid).1.users = db.users := by
  unfold cancelOrder findOrderOwned
  rw [hfind]
  simp only [hown, hst, ne_eq, if_pos rfl, ite_true, ite_false,
    eq_self_iff_true, not_true, if_neg, if_false]
  refine ⟨trivial, ?_, ?_, ?_⟩ <;> split <;> rfl

/-- PUT /api/admin/orders/:id/reject without a notification fault: answers
success, rewrites status and rejectionReason of the order, appends one
notification to the inbox of the owning user, and touches no listing. -/
theorem rejectPayment_parts (db : DB) (oid : String) (reason : Option String)
    (ts : Nat) (o : Order) (hfind : lookupA db.orders oid = some o) :
    (rejectPayment db oid reason ts false).2 = RejectResult.success
    ∧ (rejectPayment db oid reason ts false).1.orders
        = updateAssoc db.orders oid
            (fun x => { x with status := "Payment Rejected",
                               rejectionReason := reasonText reason })
    ∧ (rejectPayment db oid reason ts false).1.users
        = updateAssoc db.users o.userId
            (fun u => { u with notifications :=
              u.notifications ++ [rejNotification oid reason ts] })
    ∧ (rejectPayment db oid reason ts false).1.livestock = db.livestock := by
  unfold rejectPayment
  rw [hfind]
  simp only [Bool.false_eq_true, if_false, ite_false]
  refine ⟨?_, ?_, ?_, ?_⟩ <;> first | rfl | trivial

/-- PUT /api/admin/orders/:id/reject when appending the notification
faults: the order update has already committed and stays, no inbox
changes, and the catch block answers the 500 error. -/
theorem rejectPayment_fault_parts (db : DB) (oid : String)
    (reason : Option String) (ts : Nat) (o : Order)
    (hfind : lookupA db.orders oid = some o) :
    (rejectPayment db oid reason ts true).2 = RejectResult.serverError
    ∧ (rejectPayment db oid reason ts true).1.orders
        = updateAssoc db.orders oid
            (fun x => { x with status := "Payment Rejected",
                               rejectionReason := reasonText reason })
    ∧ (rejectPayment db oid reason ts true).1.users = db.users
    ∧ (rejectPayment db oid reason ts true).1.livestock = db.livestock := by
  unfold rejectPayment
  rw [hfind]
  simp only [if_pos rfl, ite_true]
  refine ⟨?_, ?_, ?_, ?_⟩ <;> first | rfl | trivial

/-- PUT /api/orders/:id/reupload with a file, on an owned order of ANY
status: answers success and rewrites status, rejectionReason and
paymentProof of the order, touching nothing else. -/
theorem resubmitProof_parts (db : DB) (oid uid : String) (blob : Blob)
    (o : Order) (hfind : lookupA db.orders oid = some o)
    (hown : o.userId = uid) :
    (resubmitProof db oid uid (some blob)).2 = ReuploadResult.success
    ∧ (resubmitProof db oid uid (some blob)).1.orders
        = updateAssoc db.orders oid
            (fun x => { x with status := "Processing", rejectionReason := "",
                               paymentProof := some blob })
    ∧ (resubmitProof db oid uid (some blob)).1.livestock = db.livestock
    ∧ (resubmitProof db oid uid (some blob)).1.users = db.users := by
  unfold resubmitProof findOrderOwned
  rw [hfind]
  simp only [hown, if_pos rfl, ite_true]
  refine ⟨?_, ?_, ?_, ?_⟩ <;> first | rfl | trivial

/- Frame lemmas. -/

/-- A step that leaves the order collection alone preserves the snapshot
fields. -/
theorem preservesFrame_of_orders_eq (db dbNew : DB)
    (h : dbNew.orders = db.orders) : preservesFrame db dbNew := by
  intro k
  rw [h]

/-- A step that only rewrites one order through a snapshot-preserving
function preserves the snapshot fields. -/
theorem preservesFrame_of_update (db dbNew : DB) (k0 : String)
    (f : Order → Order) (hf : ∀ o, frameFields (f o) = frameFields o)
    (h : dbNew.orders = updateAssoc db.orders k0 f) :
    preservesFrame db dbNew := by
  intro k
  rw [h, lookupA_updateAssoc]
  split
  · cases lookupA db.orders k <;> simp [hf]
  · rfl

/- Claim C1. -/

/-- C1 counterexample: listing L1 is Available; two createOrder calls (the
serial schedule, one legal interleaving of two concurrent calls) both
include L1; BOTH answer 201, and L1 is simply marked Sold — no call
receives any ReservationConflict, which the response type of the handler
cannot even express.  The claim "at most one call succeeds with L
reserved" is false on the code. -/
theorem createOrder_no_reservation_conflict_cex :
    statusOf dbAvail "L1" = some "Available"
    ∧ (createOrder dbAvail "u1" "Alice" "o1" reqL1).2.isCreated = true
    ∧ (createOrder (createOrder dbAvail "u1" "Alice" "o1" reqL1).1
        "u2" "Bob" "o2" reqL1).2.isCreated = true
    ∧ statusOf (createOrder (createOrder dbAvail "u1" "Alice" "o1" reqL1).1
        "u2" "Bob" "o2" reqL1).1 "L1" = some "Sold" := by decide

/-- C1 amended: POST /api/orders performs no availability check and has no
conflict outcome: whenever two createOrder calls both include a listing
identifier L, both calls succeed (201) and each leaves the status of L at
"Sold". -/
theorem createOrder_duplicate_listing_both_succeed (db : DB)
    (u1 n1 o1 u2 n2 o2 L : String) (req1 req2 : CreateReq)
    (h1 : L ∈ req1.items.map ItemSnap.id)
    (h2 : L ∈ req2.items.map ItemSnap.id) :
    (createOrder db u1 n1 o1 req1).2.isCreated = true
    ∧ (createOrder (createOrder db u1 n1 o1 req1).1
        u2 n2 o2 req2).2.isCreated = true
    ∧ (∀ v, lookupA (createOrder db u1 n1 o1 req1).1.livestock L = some v →
        v.status = "Sold")
    ∧ (∀ v, lookupA (createOrder (createOrder db u1 n1 o1 req1).1
        u2 n2 o2 req2).1.livestock L = some v → v.status = "Sold") := by
  refine ⟨?_, ?_, ?_, ?_⟩
  · rw [createOrder_snd]
    rfl
  · rw [createOrder_snd]
    rfl
  · exact createOrder_marks_sold db u1 n1 o1 req1 L h1
  · exact createOrder_marks_sold _ u2 n2 o2 req2 L h2

/-- C1 witness: the amended theorem applied to the concrete two-user
scenario on listing L1. -/
theorem createOrder_duplicate_listing_both_succeed_witness :
    ("L1" ∈ reqL1.items.map ItemSnap.id)
    ∧ (createOrder dbAvail "u1" "Alice" "o1" reqL1).2.isCreated = true
    ∧ (createOrder (createOrder dbAvail "u1" "Alice" "o1" reqL1).1
        "u2" "Bob" "o2" reqL1).2.isCreated = true :=
  ⟨by decide,
   (createOrder_duplicate_listing_both_succeed dbAvail "u1" "Alice" "o1"
      "u2" "Bob" "o2" "L1" reqL1 reqL1 (by decide) (by decide)).1,
   (createOrder_duplicate_listing_both_succeed dbAvail "u1" "Alice" "o1"
      "u2" "Bob" "o2" "L1" reqL1 reqL1 (by decide) (by decide)).2.1⟩

/- Claim C2. -/

/-- C2 counterexample: the basket [L1, L2] mixes the Available listing L1
with the Sold listing L2; createOrder nevertheless persists one order and
mutates L1 to Sold — not "zero listings and zero orders" as claimed. -/
theorem createOrder_mixed_basket_mutates_cex :
    statusOf dbMixed "L1" = some "Available"
    ∧ statusOf dbMixed "L2" = some "Sold"
    ∧ (createOrder dbMixed "u1" "Alice" "o1" reqL1L2).2.isCreated = true
    ∧ lookupA (createOrder dbMixed "u1" "Alice" "o1" reqL1L2).1.orders "o1"
        = some (newOrderOf "u1" "Alice" reqL1L2)
    ∧ statusOf (createOrder dbMixed "u1" "Alice" "o1" reqL1L2).1 "L1"
        = some "Sold"
    ∧ dbMixed.orders.length = 0
    ∧ (createOrder dbMixed "u1" "Alice" "o1" reqL1L2).1.orders.length = 1 := by
  decide

/-- C2 amended: on a basket mixing available and unavailable listings,
createOrder does not fail: it persists the order and sets the status of
every listing of the basket to Sold; no rollback exists. -/
theorem createOrder_mixed_basket_sells_and_persists (db : DB)
    (uid uname oid : String) (req : CreateReq) (i j : ItemSnap)
    (hi : i ∈ req.items) (hiav : statusOf db i.id = some "Available")
    (hj : j ∈ req.items) (hjun : statusOf db j.id ≠ some "Available") :
    (createOrder db uid uname oid req).2
        = CreateResult.created (newOrderOf uid uname req)
    ∧ lookupA (createOrder db uid uname oid req).1.orders oid
        = some (newOrderOf uid uname req)
    ∧ (∀ L ∈ req.items.map ItemSnap.id,
        ∀ v, lookupA (createOrder db uid uname oid req).1.livestock L
          = some v → v.status = "Sold") := by
  refine ⟨createOrder_snd db uid uname oid req, ?_, ?_⟩
  · rw [createOrder_orders]
    simp [lookupA]
  · intro L hL
    exact createOrder_marks_sold db uid uname oid req L hL

/-- C2 witness: the amended theorem applied to the mixed basket [L1, L2]
over dbMixed. -/
theorem createOrder_mixed_basket_sells_and_persists_witness :
    (itemL1 ∈ reqL1L2.items ∧ statusOf dbMixed itemL1.id = some "Available"
     ∧ itemL2 ∈ reqL1L2.items
     ∧ statusOf dbMixed itemL2.id ≠ some "Available")
    ∧ (createOrder dbMixed "u1" "Alice" "o1" reqL1L2).2
        = CreateResult.created (newOrderOf "u1" "Alice" reqL1L2) :=
  ⟨by decide,
   (createOrder_mixed_basket_sells_and_persists dbMixed "u1" "Alice" "o1"
      reqL1L2 itemL1 itemL2 (by decide) (by decide) (by decide)
      (by decide)).1⟩

/- Claim C3. -/

/-- C3 counterexample: the basket [L2] holds only the unavailable (Sold)
listing L2, yet createOrder succeeds, persists the order and leaves L2 at
Sold — never "Reserved", and no failure result names the unavailable
identifiers.  This refutes "succeeds if and only if every listing in the
basket is Available" and the "flips to Reserved" clause. -/
theorem createOrder_unavailable_basket_succeeds_cex :
    statusOf dbMixed "L2" = some "Sold"
    ∧ (createOrder dbMixed "u1" "Alice" "o1" reqL2).2.isCreated = true
    ∧ lookupA (createOrder dbMixed "u1" "Alice" "o1" reqL2).1.orders "o1"
        = some (newOrderOf "u1" "Alice" reqL2)
    ∧ statusOf (createOrder dbMixed "u1" "Alice" "o1" reqL2).1 "L2"
        = some "Sold"
    ∧ ¬ statusOf (createOrder dbMixed "u1" "Alice" "o1" reqL2).1 "L2"
        = some "Reserved" := by decide

/-- C3 amended: createOrder succeeds unconditionally: whatever the
availability of the listings in the basket, it persists an order with
status Processing, sets every basket listing to status "Sold" (never
"Reserved") and clears the cart of the requester; there is no failure
path reporting unavailable identifiers. -/
theorem createOrder_unconditional_contract (db : DB) (uid uname oid : String)
    (req : CreateReq) :
    (createOrder db uid uname oid req).2
        = CreateResult.created (newOrderOf uid uname req)
    ∧ (newOrderOf uid uname req).status = "Processing"
    ∧ lookupA (createOrder db uid uname oid req).1.orders oid
        = some (newOrderOf uid uname req)
    ∧ (∀ L ∈ req.items.map ItemSnap.id,
        ∀ v, lookupA (createOrder db uid uname oid req).1.livestock L
          = some v → v.status = "Sold")
    ∧ lookupA (createOrder db uid uname oid req).1.users uid
        = (lookupA db.users uid).map (fun u => { u with cart := [] }) := by
  refine ⟨createOrder_snd db uid uname oid req, rfl, ?_, ?_, ?_⟩
  · rw [createOrder_orders]
    simp [lookupA]
  · intro L hL
    exact createOrder_marks_sold db uid uname oid req L hL
  · rw [createOrder_users, lookupA_updateAssoc, if_pos rfl]

/-- C3 witness: the amended contract applied to the concrete basket [L1]
over dbAvail. -/
theorem createOrder_unconditional_contract_witness :
    (createOrder dbAvail "u1" "Alice" "o1" reqL1).2
      = CreateResult.created (newOrderOf "u1" "Alice" reqL1) :=
  (createOrder_unconditional_contract dbAvail "u1" "Alice" "o1" reqL1).1

/- Claim C4. -/

/-- C4: a basket of Available listings passed to createOrder and then
cancelled by the owning user (while the order is still Processing) leaves
the order Cancelled and every listing of the order back at status
Available. -/
theorem createOrder_then_cancelOrder_releases (db : DB)
    (uid uname oid : String) (req : CreateReq)
    (hav : ∀ i ∈ req.items, statusOf db i.id = some "Available") :
    (roundTrip db uid uname oid req).2 = CancelResult.ok
    ∧ (∀ v, lookupA (roundTrip db uid uname oid req).1.orders oid = some v →
        v.status = "Cancelled")
    ∧ (∀ L ∈ req.items.map ItemSnap.id,
        ∀ v, lookupA (roundTrip db uid uname oid req).1.livestock L = some v →
          v.status = "Available") := by
  unfold roundTrip
  have hlk : lookupA (createOrder db uid uname oid req).1.orders oid
      = some (newOrderOf uid uname req) := by
    rw [createOrder_orders]
    simp [lookupA]
  obtain ⟨hres, hord, hliv, -⟩ :=
    cancelOrder_ok_parts (createOrder db uid uname oid req).1 oid uid
      (newOrderOf uid uname req) hlk rfl rfl
  refine ⟨hres, ?_, ?_⟩
  · intro v hv
    rw [hord, lookupA_updateAssoc, if_pos rfl, hlk] at hv
    have hv2 : ({ newOrderOf uid uname req with status := "Cancelled" }
        : Order) = v := by simpa using hv
    rw [← hv2]
  · intro L hL v hv
    rw [hliv] at hv
    simp only [newOrderOf] at hv
    rw [if_pos (List.length_pos.mpr (List.ne_nil_of_mem hL))] at hv
    exact lookupA_updateManyStatus_mem _ _ _ L hL v hv

/-- C4 witness: the round trip on the concrete Available basket [L1]. -/
theorem createOrder_then_cancelOrder_releases_witness :
    (∀ i ∈ reqL1.items, statusOf dbAvail i.id = some "Available")
    ∧ (roundTrip dbAvail "u1" "Alice" "o1" reqL1).2 = CancelResult.ok :=
  ⟨by decide,
   (createOrder_then_cancelOrder_releases dbAvail "u1" "Alice" "o1" reqL1
      (by decide)).1⟩

/- Claim C5. -/

/-- C5: cancelOrder by the owner on an order whose status is not
Processing answers the 400 "Cannot cancel order" refusal (the
IllegalTransition condition) and returns the state completely unchanged:
no order and no listing is mutated. -/
theorem cancelOrder_nonprocessing_refused (db : DB) (oid uid : String)
    (o : Order) (hfind : lookupA db.orders oid = some o)
    (hown : o.userId = uid) (hst : o.status ≠ "Processing") :
    cancelOrder db oid uid = (db, CancelResult.cannotCancel) := by
  unfold cancelOrder findOrderOwned
  rw [hfind]
  simp only [hown, if_pos rfl, ite_true]
  rw [if_pos hst]

/-- C5 witness: cancelling the Shipped order o1 is refused and dbShipped
is returned unchanged. -/
theorem cancelOrder_nonprocessing_refused_witness :
    (lookupA dbShipped.orders "o1" = some shippedOrder
     ∧ shippedOrder.userId = "u1" ∧ shippedOrder.status ≠ "Processing")
    ∧ cancelOrder dbShipped "o1" "u1" = (dbShipped, CancelResult.cannotCancel) :=
  ⟨by decide,
   cancelOrder_nonprocessing_refused dbShipped "o1" "u1" shippedOrder
     (by decide) (by decide) (by decide)⟩

/- Claim C6. -/

/-- C6 counterexample: the reject handler checks no status: applied to the
Shipped order o1 it still succeeds and rewrites the status to Payment
Rejected, refuting the clause that rejectPayment is only legal when the
status of the order is Processing. -/
theorem rejectPayment_on_shipped_applies_cex :
    shippedOrder.status = "Shipped"
    ∧ (rejectPayment dbShipped "o1" (some "bad scan") 7 false).2
        = RejectResult.success
    ∧ (lookupA (rejectPayment dbShipped "o1" (some "bad scan") 7 false).1.orders
        "o1").map Order.status = some "Payment Rejected" := by decide

/-- C6 amended: rejectPayment applies to an existing order of ANY status
(no Processing guard exists); it sets the status to "Payment Rejected",
stores the nonempty reason in rejectionReason, and appends exactly one
notification with seen = false to the inbox of the owning user, leaving
every other inbox alone. -/
theorem rejectPayment_any_status_contract (db : DB) (oid reason : String)
    (ts : Nat) (o : Order) (hfind : lookupA db.orders oid = some o)
    (hre : reason ≠ "") :
    (rejectPayment db oid (some reason) ts false).2 = RejectResult.success
    ∧ lookupA (rejectPayment db oid (some reason) ts false).1.orders oid
        = some { o with status := "Payment Rejected",
                        rejectionReason := reason }
    ∧ lookupA (rejectPayment db oid (some reason) ts false).1.users o.userId
        = (lookupA db.users o.userId).map
            (fun u => { u with notifications :=
              u.notifications ++ [rejNotification oid (some reason) ts] })
    ∧ (rejNotification oid (some reason) ts).seen = false
    ∧ (∀ uid2, uid2 ≠ o.userId →
        lookupA (rejectPayment db oid (some reason) ts false).1.users uid2
          = lookupA db.users uid2) := by
  obtain ⟨h1, h2, h3, -⟩ := rejectPayment_parts db oid (some reason) ts o hfind
  refine ⟨h1, ?_, ?_, rfl, ?_⟩
  · rw [h2, lookupA_updateAssoc, if_pos rfl, hfind]
    simp [reasonText, hre]
  · rw [h3, lookupA_updateAssoc, if_pos rfl]
  · intro uid2 hne
    rw [h3, lookupA_updateAssoc, if_neg hne]

/-- C6 witness: the amended contract applied to the Shipped order o1 with
reason bad scan. -/
theorem rejectPayment_any_status_contract_witness :
    (lookupA dbShipped.orders "o1" = some shippedOrder
     ∧ ("bad scan" : String) ≠ "")
    ∧ (rejectPayment dbShipped "o1" (some "bad scan") 7 false).2
        = RejectResult.success :=
  ⟨⟨by decide, by decide⟩,
   (rejectPayment_any_status_contract dbShipped "o1" "bad scan" 7
      shippedOrder (by decide) (by decide)).1⟩

/- Claim C7. -/

/-- C7 counterexample: the reupload handler checks no status either: on
the Shipped order o1 the owner can attach a proof, and the status is
rewritten back to Processing — the clause that attaching a proof is only
legal when the status is Processing or PaymentRejected is false on the
code. -/
theorem resubmitProof_on_shipped_applies_cex :
    shippedOrder.status = "Shipped"
    ∧ (resubmitProof dbShipped "o1" "u1" (some proofBlob)).2
        = ReuploadResult.success
    ∧ (lookupA (resubmitProof dbShipped "o1" "u1"
        (some proofBlob)).1.orders "o1").map Order.status
        = some "Processing" := by decide

/-- C7 amended: attaching a proof applies to an owned order of ANY status;
it replaces the previous proof blob, clears rejectionReason, and sets the
status to Processing. -/
theorem resubmitProof_any_status_contract (db : DB) (oid uid : String)
    (blob : Blob) (o : Order) (hfind : lookupA db.orders oid = some o)
    (hown : o.userId = uid) :
    (resubmitProof db oid uid (some blob)).2 = ReuploadResult.success
    ∧ lookupA (resubmitProof db oid uid (some blob)).1.orders oid
        = some { o with status := "Processing", rejectionReason := "",
                        paymentProof := some blob } := by
  obtain ⟨h1, h2, -, -⟩ := resubmitProof_parts db oid uid blob o hfind hown
  refine ⟨h1, ?_⟩
  rw [h2, lookupA_updateAssoc, if_pos rfl, hfind]
  rfl

/-- C7 witness: the amended contract applied to the Shipped order o1. -/
theorem resubmitProof_any_status_contract_witness :
    (lookupA dbShipped.orders "o1" = some shippedOrder
     ∧ shippedOrder.userId = "u1")
    ∧ (resubmitProof dbShipped "o1" "u1" (some proofBlob)).2
        = ReuploadResult.success :=
  ⟨⟨by decide, by decide⟩,
   (resubmitProof_any_status_contract dbShipped "o1" "u1" proofBlob
      shippedOrder (by decide) (by decide)).1⟩

/- Claim C8. -/

/-- C8 counterexample: on the Processing order o1, a fault while appending
the notification leaves the order rejected (no rollback) but the handler
answers the 500 error instead of success: the failure IS surfaced to the
caller of the rejection, refuting the claim that it never is. -/
theorem rejectPayment_notify_fault_surfaced_cex :
    (rejectPayment dbProc "o1" (some "bad scan") 7 true).2
        ≠ RejectResult.success
    ∧ (rejectPayment dbProc "o1" (some "bad scan") 7 true).2
        = RejectResult.serverError
    ∧ (lookupA (rejectPayment dbProc "o1" (some "bad scan") 7 true).1.orders
        "o1").map Order.status = some "Payment Rejected" := by decide

/-- C8 amended: when the notification append faults, the transition of the
order to Payment Rejected is NOT rolled back (it stays committed) and no
inbox changes, but the failure is surfaced: the rejection call answers the
500 error rather than success. -/
theorem rejectPayment_notify_fault_contract (db : DB) (oid : String)
    (reason : Option String) (ts : Nat) (o : Order)
    (hfind : lookupA db.orders oid = some o) :
    (rejectPayment db oid reason ts true).2 = RejectResult.serverError
    ∧ lookupA (rejectPayment db oid reason ts true).1.orders oid
        = some { o with status := "Payment Rejected",
                        rejectionReason := reasonText reason }
    ∧ (rejectPayment db oid reason ts true).1.users = db.users := by
  obtain ⟨h1, h2, h3, -⟩ := rejectPayment_fault_parts db oid reason ts o hfind
  refine ⟨h1, ?_, h3⟩
  rw [h2, lookupA_updateAssoc, if_pos rfl, hfind]
  rfl

/-- C8 witness: the faulting rejection applied to the Processing order
o1. -/
theorem rejectPayment_notify_fault_contract_witness :
    (lookupA dbProc.orders "o1" = some procOrder)
    ∧ (rejectPayment dbProc "o1" (some "bad scan") 7 true).2
        = RejectResult.serverError :=
  ⟨by decide,
   (rejectPayment_notify_fault_contract dbProc "o1" (some "bad scan") 7
      procOrder (by decide)).1⟩

/- Claim C9. -/

/-- C9: every post-creation operation (setOrderStatus, rejectPayment with
or without a notification fault, cancelOrder, resubmitProof) preserves the
snapshot fields of every order: customer, owner, date, item list, total
and address are never mutated — only status, rejectionReason and
paymentProof change. -/
theorem order_snapshot_frame_invariant (db : DB) (oid uid s : String)
    (reason : Option String) (ts : Nat) (fault : Bool) (file : Option Blob) :
    preservesFrame db (setOrderStatus db oid s).1
    ∧ preservesFrame db (rejectPayment db oid reason ts fault).1
    ∧ preservesFrame db (cancelOrder db oid uid).1
    ∧ preservesFrame db (resubmitProof db oid uid file).1 := by
  refine ⟨?_, ?_, ?_, ?_⟩
  · refine preservesFrame_of_update db _ oid
      (fun x => { x with status := s }) ?_ rfl
    exact fun o2 => rfl
  · cases hfind : lookupA db.orders oid with
    | none =>
      apply preservesFrame_of_orders_eq
      unfold rejectPayment
      rw [hfind]
    | some o =>
      have hord : (rejectPayment db oid reason ts fault).1.orders
          = updateAssoc db.orders oid
              (fun x => { x with status := "Payment Rejected",
                                 rejectionReason := reasonText reason }) := by
        unfold rejectPayment
        rw [hfind]
        cases fault <;> rfl
      refine preservesFrame_of_update db _ oid _ ?_ hord
      exact fun o2 => rfl
  · cases hfind : lookupA db.orders oid with
    | none =>
      apply preservesFrame_of_orders_eq
      unfold cancelOrder findOrderOwned
      rw [hfind]
    | some o =>
      by_cases hown : o.userId = uid
      · by_cases hst : o.status = "Processing"
        · obtain ⟨-, hord, -, -⟩ :=
            cancelOrder_ok_parts db oid uid o hfind hown hst
          refine preservesFrame_of_update db _ oid _ ?_ hord
          exact fun o2 => rfl
        · apply preservesFrame_of_orders_eq
          unfold cancelOrder findOrderOwned
          rw [hfind]
          simp only [hown, if_pos rfl, ite_true]
          rw [if_pos hst]
      · apply preservesFrame_of_orders_eq
        unfold cancelOrder findOrderOwned
        rw [hfind]
        simp [hown]
  · cases file with
    | none => exact preservesFrame_of_orders_eq _ _ rfl
    | some blob =>
      cases hfind : lookupA db.orders oid with
      | none =>
        apply preservesFrame_of_orders_eq
        unfold resubmitProof findOrderOwned
        rw [hfind]
      | some o =>
        by_cases hown : o.userId = uid
        · obtain ⟨-, h2, -, -⟩ :=
            resubmitProof_parts db oid uid blob o hfind hown
          refine preservesFrame_of_update db _ oid _ ?_ h2
          exact fun o2 => rfl
        · apply preservesFrame_of_orders_eq
          unfold resubmitProof findOrderOwned
          rw [hfind]
          simp [hown]

/-- C9 witness: the frame invariant instantiated on the concrete state
dbProc for a staff status overwrite. -/
theorem order_snapshot_frame_invariant_witness :
    preservesFrame dbProc (setOrderStatus dbProc "o1" "Shipped").1 :=
  (order_snapshot_frame_invariant dbProc "o1" "u1" "Shipped" (some "r") 7
    false (some proofBlob)).1

/- Claim C10. -/

/-- C10: createOrder on an empty basket persists and returns an order with
zero item snapshots and status Processing, touches no listing, and still
clears the cart of the requester. -/
theorem createOrder_empty_basket (db : DB) (uid uname oid : String)
    (req : CreateReq) (hempty : req.items = []) :
    (createOrder db uid uname oid req).2
        = CreateResult.created (newOrderOf uid uname req)
    ∧ (newOrderOf uid uname req).items = []
    ∧ (newOrderOf uid uname req).status = "Processing"
    ∧ lookupA (createOrder db uid uname oid req).1.orders oid
        = some (newOrderOf uid uname req)
    ∧ (createOrder db uid uname oid req).1.livestock = db.livestock
    ∧ lookupA (createOrder db uid uname oid req).1.users uid
        = (lookupA db.users uid).map (fun u => { u with cart := [] }) := by
  have hlen : ¬ (req.items.map ItemSnap.id).length > 0 := by simp [hempty]
  refine ⟨createOrder_snd db uid uname oid req, ?_, rfl, ?_, ?_, ?_⟩
  · simp [newOrderOf, hempty]
  · rw [createOrder_orders]
    simp [lookupA]
  · rw [createOrder_livestock, if_neg hlen]
  · rw [createOrder_users, lookupA_updateAssoc, if_pos rfl]

/-- C10 witness: the empty-basket request over dbAvail. -/
theorem createOrder_empty_basket_witness :
    (reqEmpty.items = [])
    ∧ (createOrder dbAvail "u1" "Alice" "o1" reqEmpty).1.livestock
        = dbAvail.livestock :=
  ⟨by decide,
   (createOrder_empty_basket dbAvail "u1" "Alice" "o1" reqEmpty
      (by decide)).2.2.2.2.1⟩

end GoatUser
